import Mathlib

/-!
Verification development for the `luxem-lsc-cashback` webhook receiver.

The repository holds two variants of the same Vercel handler:
  * `src/api/shopify-orders-paid.js`  — called V1 below,
  * `src/unnamed/part_000`            — called V2 below.

Both are shallowly embedded as pure Lean functions.  Host/builtin
behaviour that the handlers call out to (HMAC-SHA256/base64, JSON.parse,
JS `Number(string)` coercion, number-to-string printing, `toFixed(2)`
rounding) is abstracted as a `Host` record of functions; theorems
quantify over the host unless they evaluate a concrete scenario, in
which case `testHost` provides executable stand-ins.

JavaScript numbers are idealised as `Option ℚ` with `none` playing the
role of `NaN`; claims that depend on IEEE-754 binary rounding are not
settled against this model.  The database table is a `List Row`; the
single SQL statement with `ON CONFLICT` is modelled as one atomic table
transformation (`upsertRow` for V1's `DO UPDATE`, `insertIfAbsent` for
V2's `DO NOTHING`).  Each run also produces a trace of observable steps
(`Ev`) in program order, used for the temporal claims.
-/

/-- ASCII lowercase of one character (JS `toLowerCase` on the ASCII
range, the only range exercised by domains and topics). -/
def charLower (c : Char) : Char :=
  if 65 ≤ c.toNat && c.toNat ≤ 90 then Char.ofNat (c.toNat + 32) else c

/-- JS `s.toLowerCase()` on ASCII strings. -/
def strToLower (s : String) : String :=
  String.mk (s.data.map charLower)

/-- JavaScript values as produced by `JSON.parse` (arrays are omitted:
no code path of either handler reads an array field). `undef` is the
JS `undefined` produced by a failed property access. -/
inductive Js where
  | null
  | undefined
  | bool (b : Bool)
  | num (q : Option ℚ)
  | str (s : String)
  | obj (fields : List (String × Js))

/-- JS truthiness: `NaN`, `0`, `""`, `null`, `undefined`, `false` are falsy. -/
def jsTruthy : Js → Bool
  | .null => false
  | .undefined => false
  | .bool b => b
  | .num none => false
  | .num (some q) => !(q == 0)
  | .str s => !(s == "")
  | .obj _ => true

/-- Optional-chained property access `v?.k`: `undefined` on `null`,
`undefined`, and on primitives that lack the key. -/
def jsGetOpt (v : Js) (k : String) : Js :=
  match v with
  | .obj fields =>
    match fields.find? (fun p => p.fst == k) with
    | some p => p.snd
    | none => .undefined
  | _ => .undefined

/-- JS `a ?? b` (nullish coalescing). -/
def jsNullish (a b : Js) : Js :=
  match a with
  | .null => b
  | .undefined => b
  | _ => a

/-- JS `a || b` (truthiness-based). -/
def jsOr (a b : Js) : Js :=
  if jsTruthy a then a else b

/-- Host/builtin functions the handlers call; kept abstract so theorems
hold for any implementation of the platform. -/
structure Host where
  /-- `crypto.createHmac("sha256", secret).update(raw).digest("base64")`. -/
  hmacBase64 : String → String → String
  /-- `JSON.parse`: `none` models a thrown `SyntaxError`. -/
  parseJson : String → Option Js
  /-- `Number(s)` on a string; `none` models `NaN`. -/
  strToNumber : String → Option ℚ
  /-- JS number-to-string printing for finite values (used by `String(x)`). -/
  numToString : ℚ → String
  /-- `Number(x.toFixed(2))` on a finite value. -/
  round2 : ℚ → ℚ

/-- JS `String(v)`. -/
def jsToString (host : Host) : Js → String
  | .str s => s
  | .num none => "NaN"
  | .num (some q) => host.numToString q
  | .bool true => "true"
  | .bool false => "false"
  | .null => "null"
  | .undefined => "undefined"
  | .obj _ => "[object Object]"

/-- JS `Number(v)` (`none` = `NaN`). -/
def jsToNumber (host : Host) : Js → Option ℚ
  | .num q => q
  | .str s => host.strToNumber s
  | .bool true => some 1
  | .bool false => some 0
  | .null => some 0
  | .undefined => none
  | .obj _ => none

/-- JS `x > 0` on an idealised number (`NaN > 0` is `false`). -/
def jsPos : Option ℚ → Bool
  | none => false
  | some q => 0 < q

/-- Whether a value is JS `null` (a strict property access on it throws). -/
def jsIsNull : Js → Bool
  | .null => true
  | _ => false

/-- Static configuration read from the environment at process start.
`secret = ""` models an unset `SHOPIFY_WEBHOOK_SECRET`; `allowedDomain`
is already lowercased as in the source; `cashbackPercent = none` models
`Number(process.env.LSC_CASHBACK_PERCENT)` being `NaN`. -/
structure Config where
  secret : String
  allowedDomain : String
  cashbackPercent : Option ℚ

/-- An inbound HTTP request as the handlers see it. `none` header =
header absent. The raw body is the exact byte string received. -/
structure Request where
  method : String
  hmacHeader : Option String
  topicHeader : Option String
  shopDomainHeader : Option String
  rawBody : String

/-- One row of `lsc_cashback_events` (the `created_at` column is set by
the database default and never read by the handlers, so it is omitted). -/
structure Row where
  order_id : String
  shop_domain : String
  customer_email : Js
  currency : Js
  total_paid : Option ℚ
  cashback_percent : ℚ
  cashback_amount : Option ℚ
  raw : Js

/-- Observable steps of a run, emitted in program order. `hmacWork` is
secret-dependent work: the HMAC digest being computed. `enteredVerify`
marks reaching the signature-verification stage (even when the secret is
missing and no digest is computed). -/
inductive Ev where
  | checkedMethod
  | checkedDomain
  | enteredVerify
  | hmacWork
  | checkedTopic
  | parsedJson
  | attemptedInsert
deriving DecidableEq, Repr

/-- The observable outcome of one request: HTTP status, the `ok` flag of
a JSON response body (V2 sends plain text, hence `none`), a short note
identifying the response branch, the table after the request, and the
trace. -/
structure Outcome where
  status : Nat
  ok : Option Bool
  note : String
  table : List Row
  trace : List Ev

/-- V1's `INSERT ... ON CONFLICT (order_id) DO UPDATE SET <all payload
columns>`: one atomic statement; on conflict every non-key column is
replaced by the excluded row's values. -/
def upsertRow (t : List Row) (r : Row) : List Row :=
  if t.any (fun x => x.order_id == r.order_id) then
    t.map (fun x => if x.order_id == r.order_id then r else x)
  else t ++ [r]

/-- V2's `INSERT ... ON CONFLICT (order_id) DO NOTHING`: one atomic
statement; a conflicting insert is a no-op. -/
def insertIfAbsent (t : List Row) (r : Row) : List Row :=
  if t.any (fun x => x.order_id == r.order_id) then t else t ++ [r]

/-- Number of rows carrying a given order identifier. -/
def countKey (t : List Row) (oid : String) : Nat :=
  t.countP (fun x => x.order_id == oid)

/-- V1 line 75: `if (ALLOWED_SHOPIFY_DOMAIN && shopDomain !== ALLOWED_SHOPIFY_DOMAIN)`. -/
def domainRejectV1 (cfg : Config) (shop : String) : Bool :=
  !(cfg.allowedDomain == "") && !(shop == cfg.allowedDomain)

/-- V2 line 53: `if (!ALLOWED_SHOPIFY_DOMAIN || shop !== ALLOWED_SHOPIFY_DOMAIN)`. -/
def domainRejectV2 (cfg : Config) (shop : String) : Bool :=
  (cfg.allowedDomain == "") || !(shop == cfg.allowedDomain)

/-- JS `s.includes(sub)`: `sub` occurs as a contiguous substring of `s`. -/
def strIncludes (s sub : String) : Bool :=
  (List.range (s.data.length + 1)).any (fun i => sub.data.isPrefixOf (s.data.drop i))

/-- V1 line 87: `!topic || (!topic.includes("orders/paid") && !topic.includes("order"))`. -/
def topicSkipV1 (topic : Option String) : Bool :=
  match topic with
  | none => true
  | some t => (t == "") || (!(strIncludes t "orders/paid") && !(strIncludes t "order"))

/-- V2 lines 36-41: byte-length check, then `crypto.timingSafeEqual`
(which on equal lengths is equality of the byte strings). -/
def timingSafeEqualStr (a b : String) : Bool :=
  (a.length == b.length) && (a == b)

/-- Result of V1's `verifyShopifyHmac` call site: the function returns
`false` when the secret is unset (no digest computed), and
`crypto.timingSafeEqual` THROWS when the two buffers differ in length. -/
inductive HmacCheck where
  | notConfigured
  | threw
  | mismatch
  | valid
deriving DecidableEq, Repr

/-- V1 lines 47-54 (`verifyShopifyHmac`). -/
def verifyShopifyHmac (cfg : Config) (host : Host) (rawBody : String)
    (hmacHeader : Option String) : HmacCheck :=
  if cfg.secret == "" then .notConfigured
  else
    let digest := host.hmacBase64 cfg.secret rawBody
    let claimed := hmacHeader.getD ""
    if digest.length == claimed.length then
      (if digest == claimed then .valid else .mismatch)
    else .threw

/-- V1 line 93: `String(payload?.id ?? payload?.order_id ?? "")`. -/
def normOrderIdV1 (host : Host) (p : Js) : String :=
  jsToString host (jsNullish (jsGetOpt p "id") (jsNullish (jsGetOpt p "order_id") (.str "")))

/-- V1 lines 94-95: `payload?.email || payload?.customer?.email || payload?.customer?.default_address?.email || null`. -/
def normEmailV1 (p : Js) : Js :=
  jsOr (jsGetOpt p "email")
    (jsOr (jsGetOpt (jsGetOpt p "customer") "email")
      (jsOr (jsGetOpt (jsGetOpt (jsGetOpt p "customer") "default_address") "email") .null))

/-- V1 line 96: `payload?.currency || payload?.presentment_currency || "USD"`. -/
def normCurrencyV1 (p : Js) : Js :=
  jsOr (jsGetOpt p "currency") (jsOr (jsGetOpt p "presentment_currency") (.str "USD"))

/-- V1 lines 99-104: `Number(total_price || current_total_price || total_price_set?.shop_money?.amount || "0")`. -/
def normTotalPaidV1 (host : Host) (p : Js) : Option ℚ :=
  jsToNumber host
    (jsOr (jsGetOpt p "total_price")
      (jsOr (jsGetOpt p "current_total_price")
        (jsOr (jsGetOpt (jsGetOpt (jsGetOpt p "total_price_set") "shop_money") "amount")
          (.str "0"))))

/-- V2 line 66: `String(payload.id || "")` (the strict access throws only
when the payload is `null`, which the handler checks separately). -/
def normOrderIdV2 (host : Host) (p : Js) : String :=
  jsToString host (jsOr (jsGetOpt p "id") (.str ""))

/-- V2 line 67: `payload?.email || payload?.customer?.email || null`. -/
def normEmailV2 (p : Js) : Js :=
  jsOr (jsGetOpt p "email") (jsOr (jsGetOpt (jsGetOpt p "customer") "email") .null)

/-- V2 lines 68-70: shop-money currency code, then `currency`, then
`presentment_currency`, defaulting to `"USD"`. -/
def normCurrencyV2 (p : Js) : Js :=
  jsOr (jsGetOpt (jsGetOpt (jsGetOpt p "total_price_set") "shop_money") "currency_code")
    (jsOr (jsGetOpt p "currency") (jsOr (jsGetOpt p "presentment_currency") (.str "USD")))

/-- V2 line 71: `Number(total_price_set?.shop_money?.amount ?? total_price ?? 0)`. -/
def normTotalPaidV2 (host : Host) (p : Js) : Option ℚ :=
  jsToNumber host
    (jsNullish (jsGetOpt (jsGetOpt (jsGetOpt p "total_price_set") "shop_money") "amount")
      (jsNullish (jsGetOpt p "total_price") (.num (some 0))))

/-- `Number.isFinite(LSC_CASHBACK_PERCENT) ? LSC_CASHBACK_PERCENT : 5`
(V1 line 106, V2 line 74). -/
def pctOf (cfg : Config) : ℚ :=
  cfg.cashbackPercent.getD 5

/-- `Number((totalPaid * (pct / 100)).toFixed(2))`; `NaN` propagates
(`NaN.toFixed(2)` is `"NaN"` and `Number("NaN")` is `NaN`). -/
def cashbackOf (host : Host) (pct : ℚ) (totalPaid : Option ℚ) : Option ℚ :=
  totalPaid.map (fun t => host.round2 (t * (pct / 100)))

/-- V1's catch-all handler for any exception thrown inside the `try`
block (lines 137-141): log and answer `200 { ok:false, error: "Logged server error" }`. -/
def catchOutcome (table : List Row) (tr : List Ev) : Outcome :=
  { status := 200, ok := some false, note := "Logged server error", table := table, trace := tr }

/-- The V1 handler (`src/api/shopify-orders-paid.js`, `handler`).
`dbFail` injects a storage-layer exception at the persistence step
(`ensureTable` / the `INSERT`), in which case the table is unchanged. -/
def handler1 (cfg : Config) (host : Host) (dbFail : Bool) (req : Request)
    (table : List Row) : Outcome :=
  if !(req.method == "POST") then
    { status := 405, ok := some false, note := "Method Not Allowed",
      table := table, trace := [.checkedMethod] }
  else
    let shopDomain := strToLower (req.shopDomainHeader.getD "")
    if domainRejectV1 cfg shopDomain then
      { status := 401, ok := some false, note := "Unauthorized shop domain",
        table := table, trace := [.checkedMethod, .checkedDomain] }
    else
      match verifyShopifyHmac cfg host req.rawBody req.hmacHeader with
      | .notConfigured =>
        { status := 401, ok := some false, note := "Invalid HMAC",
          table := table, trace := [.checkedMethod, .checkedDomain, .enteredVerify] }
      | .threw =>
        catchOutcome table [.checkedMethod, .checkedDomain, .enteredVerify, .hmacWork]
      | .mismatch =>
        { status := 401, ok := some false, note := "Invalid HMAC",
          table := table, trace := [.checkedMethod, .checkedDomain, .enteredVerify, .hmacWork] }
      | .valid =>
        match host.parseJson req.rawBody with
        | none =>
          catchOutcome table
            [.checkedMethod, .checkedDomain, .enteredVerify, .hmacWork, .parsedJson]
        | some payload =>
          if topicSkipV1 req.topicHeader then
            { status := 200, ok := some true, note := "Not an orders/paid topic",
              table := table,
              trace := [.checkedMethod, .checkedDomain, .enteredVerify, .hmacWork,
                        .parsedJson, .checkedTopic] }
          else
            let orderId := normOrderIdV1 host payload
            let pct := pctOf cfg
            let row : Row :=
              { order_id := orderId, shop_domain := shopDomain,
                customer_email := normEmailV1 payload,
                currency := normCurrencyV1 payload,
                total_paid := normTotalPaidV1 host payload,
                cashback_percent := pct,
                cashback_amount := cashbackOf host pct (normTotalPaidV1 host payload),
                raw := payload }
            if dbFail then
              catchOutcome table
                [.checkedMethod, .checkedDomain, .enteredVerify, .hmacWork,
                 .parsedJson, .checkedTopic, .attemptedInsert]
            else
              { status := 200, ok := some true, note := "saved",
                table := upsertRow table row,
                trace := [.checkedMethod, .checkedDomain, .enteredVerify, .hmacWork,
                          .parsedJson, .checkedTopic, .attemptedInsert] }

/-- The V2 handler (`src/unnamed/part_000`, `handler`). `dbFail` injects
a storage-layer exception inside the persistence `try` block, which V2
catches and logs before still answering `200 OK`. A `null` payload makes
the strict access `payload.id` throw a TypeError, which nothing catches:
the platform surfaces an internal error (modelled as status 500). -/
def handler2 (cfg : Config) (host : Host) (dbFail : Bool) (req : Request)
    (table : List Row) : Outcome :=
  if !(req.method == "POST") then
    { status := 405, ok := none, note := "Method Not Allowed",
      table := table, trace := [.checkedMethod] }
  else
    let hmac := req.hmacHeader.getD ""
    let shop := strToLower (req.shopDomainHeader.getD "")
    let topic := strToLower (req.topicHeader.getD "")
    if domainRejectV2 cfg shop then
      { status := 403, ok := none, note := "Forbidden (domain)",
        table := table, trace := [.checkedMethod, .checkedDomain] }
    else
      if cfg.secret == "" then
        { status := 500, ok := none, note := "Server misconfigured (secret)",
          table := table, trace := [.checkedMethod, .checkedDomain, .enteredVerify] }
      else
        let digest := host.hmacBase64 cfg.secret req.rawBody
        if !(timingSafeEqualStr digest hmac) then
          { status := 403, ok := none, note := "Forbidden (hmac)",
            table := table,
            trace := [.checkedMethod, .checkedDomain, .enteredVerify, .hmacWork] }
        else
          if !(topic == "orders/paid") then
            { status := 200, ok := none, note := "Ignored topic",
              table := table,
              trace := [.checkedMethod, .checkedDomain, .enteredVerify, .hmacWork,
                        .checkedTopic] }
          else
            match host.parseJson req.rawBody with
            | none =>
              { status := 400, ok := none, note := "Bad JSON",
                table := table,
                trace := [.checkedMethod, .checkedDomain, .enteredVerify, .hmacWork,
                          .checkedTopic, .parsedJson] }
            | some payload =>
              if jsIsNull payload then
                { status := 500, ok := none, note := "Unhandled TypeError",
                  table := table,
                  trace := [.checkedMethod, .checkedDomain, .enteredVerify, .hmacWork,
                            .checkedTopic, .parsedJson] }
              else
                let orderId := normOrderIdV2 host payload
                let totalPaid := normTotalPaidV2 host payload
                if (orderId == "") || !(jsPos totalPaid) then
                  { status := 200, ok := none, note := "Missing order data",
                    table := table,
                    trace := [.checkedMethod, .checkedDomain, .enteredVerify, .hmacWork,
                              .checkedTopic, .parsedJson] }
                else
                  let pct := pctOf cfg
                  let row : Row :=
                    { order_id := orderId, shop_domain := shop,
                      customer_email := normEmailV2 payload,
                      currency := normCurrencyV2 payload,
                      total_paid := totalPaid,
                      cashback_percent := pct,
                      cashback_amount := cashbackOf host pct totalPaid,
                      raw := payload }
                  if dbFail then
                    { status := 200, ok := none, note := "OK",
                      table := table,
                      trace := [.checkedMethod, .checkedDomain, .enteredVerify, .hmacWork,
                                .checkedTopic, .parsedJson, .attemptedInsert] }
                  else
                    { status := 200, ok := none, note := "OK",
                      table := insertIfAbsent table row,
                      trace := [.checkedMethod, .checkedDomain, .enteredVerify, .hmacWork,
                                .checkedTopic, .parsedJson, .attemptedInsert] }

/-- Which handler variant serves a delivery. -/
inductive StepKind where
  | v1
  | v2
deriving DecidableEq, Repr

/-- One delivered request together with everything that can vary between
deliveries: the variant, the configuration, the host behaviour, and
whether the storage layer fails during it. -/
structure Step where
  kind : StepKind
  cfg : Config
  host : Host
  dbFail : Bool
  req : Request

/-- The table after serving one delivery. -/
def applyStep (t : List Row) (s : Step) : List Row :=
  match s.kind with
  | .v1 => (handler1 s.cfg s.host s.dbFail s.req t).table
  | .v2 => (handler2 s.cfg s.host s.dbFail s.req t).table

/-- The table after serving a sequence of deliveries in order. -/
def runSeq (steps : List Step) (t : List Row) : List Row :=
  steps.foldl applyStep t

/-! ### Concrete test fixtures

Executable stand-ins for the host functions, used only by the closed
scenario theorems. `testHmac` always returns a 44-character string, the
length of the base64 encoding of a 32-byte HMAC-SHA256 digest. -/

/-- Value of a list of decimal digit characters; `none` on a non-digit.
An empty list yields 0, matching how JS treats empty numeric parts. -/
def digitsToNat? (cs : List Char) : Option Nat :=
  cs.foldl
    (fun acc c => acc.bind (fun n => if c.isDigit then some (10 * n + (c.toNat - 48)) else none))
    (some 0)

/-- `Number(s)` on the plain unsigned decimal literals exercised by the
concrete scenarios (`"0"`, `"200.00"`, ...); `""` is 0 as in JS. -/
def testStrToNumber (s : String) : Option ℚ :=
  if s == "" then some 0
  else
    let p := s.data.span (fun c => !(c == '.'))
    match p.2 with
    | [] => (digitsToNat? p.1).map (fun n => (n : ℚ))
    | _ :: frac =>
      if frac.any (fun c => c == '.') then none
      else if p.1.isEmpty && frac.isEmpty then none
      else
        match digitsToNat? p.1, digitsToNat? frac with
        | some iv, some fv => some ((iv : ℚ) + (fv : ℚ) / ((10 : ℚ) ^ frac.length))
        | _, _ => none

/-- A fixed-length (44-character) digest stand-in for HMAC-SHA256/base64. -/
def testHmac (secret body : String) : String :=
  String.mk (((secret ++ "#" ++ body) ++ "============================================").data.take 44)

/-- Half-up rounding to 2 decimal places, a stand-in for `toFixed(2)`. -/
def testRound2 (q : ℚ) : ℚ :=
  ((q * 100 + 1 / 2).floor : ℚ) / 100

/-- Integer-only stand-in for JS number printing (the scenarios only
ever stringify string-valued ids, so this is never reached by them). -/
def testNumToString (q : ℚ) : String :=
  if q.den == 1 then
    (if q.num < 0 then "-" ++ toString q.num.natAbs else toString q.num.natAbs)
  else "nonint"

/-- Body `JSON: id "1001", total_price "200.00"`. -/
def bodyPaid200 : String := "\x7b\"id\":\"1001\",\"total_price\":\"200.00\"\x7d"

/-- Parse of `bodyPaid200`. -/
def payloadPaid200 : Js := .obj [("id", .str "1001"), ("total_price", .str "200.00")]

/-- Body `JSON: id "1001", total_price "0"` (no other amount fields). -/
def bodyPaid0 : String := "\x7b\"id\":\"1001\",\"total_price\":\"0\"\x7d"

/-- Parse of `bodyPaid0`. -/
def payloadPaid0 : Js := .obj [("id", .str "1001"), ("total_price", .str "0")]

/-- A body that is not well-formed JSON. -/
def bodyBad : String := "not json"

/-- `JSON.parse` on exactly the scenario bodies; everything else throws. -/
def testParse (s : String) : Option Js :=
  if s == bodyPaid200 then some payloadPaid200
  else if s == bodyPaid0 then some payloadPaid0
  else none

/-- The concrete host used by the closed scenario theorems. -/
def testHost : Host :=
  { hmacBase64 := testHmac, parseJson := testParse, strToNumber := testStrToNumber,
    numToString := testNumToString, round2 := testRound2 }

/-- The concrete configuration used by the closed scenario theorems. -/
def testCfg : Config :=
  { secret := "whsec", allowedDomain := "shop.example.com", cashbackPercent := some 5 }

/-- A POST request from the allowed shop with the given topic, claimed
signature and raw body. -/
def reqOf (topic : Option String) (hmac : Option String) (body : String) : Request :=
  { method := "POST", hmacHeader := hmac, topicHeader := topic,
    shopDomainHeader := some "shop.example.com", rawBody := body }

/-- The valid signature over `bodyPaid200` under `testCfg`'s secret. -/
def sigPaid200 : String := testHmac "whsec" bodyPaid200

/-- The valid signature over `bodyPaid0` under `testCfg`'s secret. -/
def sigPaid0 : String := testHmac "whsec" bodyPaid0

/-- The valid signature over `bodyBad` under `testCfg`'s secret. -/
def sigBadJson : String := testHmac "whsec" bodyBad

/-- A 44-character claimed signature that does not match `bodyPaid200`
under `testCfg`'s secret (signed with a different key). -/
def sigWrong : String := testHmac "wrong" bodyPaid200

/-- A configuration whose domain allow-list is unset (empty string). -/
def openCfg : Config :=
  { secret := "whsec", allowedDomain := "", cashbackPercent := some 5 }

/-- A request identical to `reqOf` but declaring an arbitrary other shop. -/
def reqOtherShop (topic : Option String) (hmac : Option String) (body : String) : Request :=
  { method := "POST", hmacHeader := hmac, topicHeader := topic,
    shopDomainHeader := some "evil.example.org", rawBody := body }


/-! ### Theorems -/

theorem countKey_map_replace (t : List Row) (r : Row) (oid : String) :
    countKey (t.map (fun x => if x.order_id == r.order_id then r else x)) oid
      = countKey t oid := by
  unfold countKey
  induction t with
  | nil => rfl
  | cons a t ih =>
    rw [List.map_cons, List.countP_cons, List.countP_cons, ih]
    by_cases h : (a.order_id == r.order_id) = true
    · rw [if_pos h]
      have ha : a.order_id = r.order_id := by simpa using h
      rw [ha]
    · rw [if_neg h]

theorem notMem_of_any_false (t : List Row) (r : Row)
    (hany : ¬((t.any fun x => x.order_id == r.order_id) = true)) :
    ∀ a ∈ t, (a.order_id == r.order_id) = false := by
  intro a ha
  cases hb : (a.order_id == r.order_id) with
  | false => rfl
  | true => exact absurd (List.any_eq_true.mpr ⟨a, ha, hb⟩) hany

theorem countKey_upsertRow_le (t : List Row) (r : Row) (oid : String)
    (h : countKey t oid ≤ 1) : countKey (upsertRow t r) oid ≤ 1 := by
  unfold upsertRow
  split
  · rw [countKey_map_replace]; exact h
  · next hany =>
    have hall := notMem_of_any_false t r hany
    unfold countKey at *
    rw [List.countP_append]
    by_cases hk : r.order_id = oid
    · subst hk
      have h0 : t.countP (fun x => x.order_id == r.order_id) = 0 := by
        rw [List.countP_eq_zero]
        intro a ha
        simp [hall a ha]
      simp [h0, List.countP_cons]
    · have hko : (r.order_id == oid) = false := by simpa using hk
      simp [List.countP_cons, hko]
      exact h

theorem countKey_insertIfAbsent_le (t : List Row) (r : Row) (oid : String)
    (h : countKey t oid ≤ 1) : countKey (insertIfAbsent t r) oid ≤ 1 := by
  unfold insertIfAbsent
  split
  · exact h
  · next hany =>
    have hall := notMem_of_any_false t r hany
    unfold countKey at *
    rw [List.countP_append]
    by_cases hk : r.order_id = oid
    · subst hk
      have h0 : t.countP (fun x => x.order_id == r.order_id) = 0 := by
        rw [List.countP_eq_zero]
        intro a ha
        simp [hall a ha]
      simp [h0, List.countP_cons]
    · have hko : (r.order_id == oid) = false := by simpa using hk
      simp [List.countP_cons, hko]
      exact h

theorem handler1_table_cases (cfg : Config) (host : Host) (dbF : Bool) (req : Request)
    (t : List Row) :
    (handler1 cfg host dbF req t).table = t ∨
      ∃ r, (handler1 cfg host dbF req t).table = upsertRow t r := by
  simp only [handler1, catchOutcome]
  repeat' split
  all_goals first
    | exact Or.inl rfl
    | exact Or.inr ⟨_, rfl⟩

theorem handler2_table_cases (cfg : Config) (host : Host) (dbF : Bool) (req : Request)
    (t : List Row) :
    (handler2 cfg host dbF req t).table = t ∨
      ∃ r, (handler2 cfg host dbF req t).table = insertIfAbsent t r := by
  simp only [handler2]
  repeat' split
  all_goals first
    | exact Or.inl rfl
    | exact Or.inr ⟨_, rfl⟩

theorem countKey_applyStep_le (t : List Row) (s : Step) (oid : String)
    (h : countKey t oid ≤ 1) : countKey (applyStep t s) oid ≤ 1 := by
  unfold applyStep
  cases s.kind with
  | v1 =>
    rcases handler1_table_cases s.cfg s.host s.dbFail s.req t with heq | ⟨r, heq⟩
    · rw [heq]; exact h
    · rw [heq]; exact countKey_upsertRow_le t r oid h
  | v2 =>
    rcases handler2_table_cases s.cfg s.host s.dbFail s.req t with heq | ⟨r, heq⟩
    · rw [heq]; exact h
    · rw [heq]; exact countKey_insertIfAbsent_le t r oid h

theorem countKey_runSeq_le (steps : List Step) (t : List Row) (oid : String)
    (h : countKey t oid ≤ 1) : countKey (runSeq steps t) oid ≤ 1 := by
  induction steps generalizing t with
  | nil => exact h
  | cons s ss ih =>
    rw [runSeq, List.foldl_cons]
    exact ih (applyStep t s) (countKey_applyStep_le t s oid h)

/-- Claim C1: starting from an empty table, after any sequence of
delivered requests (any mix of the two handler variants, any
configurations, host behaviours and storage outcomes) at most one row
exists per order identifier; each delivery changes the table only by
the single atomic conflict-aware statement (`upsertRow` resp.
`insertIfAbsent`), with no separate read-then-write step. -/
theorem C1_at_most_one_row_per_order (steps : List Step) (oid : String) :
    countKey (runSeq steps []) oid ≤ 1 :=
  countKey_runSeq_le steps [] oid (by simp [countKey])

/-- Claim C2 (code bug, evaluated): a POST from the allowed domain whose
signature header is absent, under a configured secret, makes V1's
`crypto.timingSafeEqual` throw (digest is 44 bytes, claimed header 0),
and the catch-all answers status 200 with `ok:false` — not the 401/403
the claim (and spec) require — though indeed nothing is persisted.  The
V2 variant length-checks first and correctly answers 403 with nothing
persisted. -/
theorem C2_code_bug_missing_header_answered_200 :
    (handler1 testCfg testHost false (reqOf (some "orders/paid") none bodyPaid200) []).status = 200 ∧
    (handler1 testCfg testHost false (reqOf (some "orders/paid") none bodyPaid200) []).ok = some false ∧
    (handler1 testCfg testHost false (reqOf (some "orders/paid") none bodyPaid200) []).table = [] ∧
    (handler2 testCfg testHost false (reqOf (some "orders/paid") none bodyPaid200) []).status = 403 ∧
    (handler2 testCfg testHost false (reqOf (some "orders/paid") none bodyPaid200) []).table = [] :=
  ⟨by decide, by rfl, by rfl, by decide, by rfl⟩

/-- Claim C3 (code bug, evaluated): a validly signed POST from the
allowed domain with topic `"orders/updated"` — which V1's own comment
says to skip ("Accept both Orders Paid & Payment events") — passes V1's
filter because `"orders/updated".includes("order")`, so V1 creates a
record (order `1001`) and answers 200, contradicting the claim that no
record is created.  V2 filters strictly on `"orders/paid"` and creates
nothing. -/
theorem C3_code_bug_orders_updated_creates_record :
    (handler1 testCfg testHost false (reqOf (some "orders/updated") (some sigPaid200) bodyPaid200) []).status = 200 ∧
    ((handler1 testCfg testHost false (reqOf (some "orders/updated") (some sigPaid200) bodyPaid200) []).table.map
      (fun r => r.order_id)) = ["1001"] ∧
    (handler2 testCfg testHost false (reqOf (some "orders/updated") (some sigPaid200) bodyPaid200) []).status = 200 ∧
    (handler2 testCfg testHost false (reqOf (some "orders/updated") (some sigPaid200) bodyPaid200) []).table = [] :=
  ⟨by decide, by decide, by decide, by rfl⟩

/-- Claim C4 (counterexample): a validly signed `orders/paid` POST with
`total_price: "0"` and no other amount fields makes V1 — which has no
missing-data guard at all — persist a row for order `1001` with
`total_paid = 0` while answering 200, refuting "the handler persists
nothing". -/
theorem C4_counterexample_v1_persists_zero_amount :
    (handler1 testCfg testHost false (reqOf (some "orders/paid") (some sigPaid0) bodyPaid0) []).status = 200 ∧
    ((handler1 testCfg testHost false (reqOf (some "orders/paid") (some sigPaid0) bodyPaid0) []).table.map
      (fun r => r.order_id)) = ["1001"] ∧
    ((handler1 testCfg testHost false (reqOf (some "orders/paid") (some sigPaid0) bodyPaid0) []).table.map
      (fun r => r.total_paid)) = [some 0] :=
  ⟨by decide, by decide, by decide⟩

/-- Claim C5 (counterexample): a request whose topic (`"orders/updated"`)
is one the Request Gate should be able to skip, but whose signature is
invalid (same length, different content), is answered 401/403 by both
handlers with `hmacWork` in the trace and `checkedTopic` absent: the
HMAC was computed and compared although the topic filter never ran, so
topic filtering is NOT evaluated before secret-dependent work. -/
theorem C5_counterexample_hmac_before_topic :
    (handler1 testCfg testHost false (reqOf (some "orders/updated") (some sigWrong) bodyPaid200) []).status = 401 ∧
    Ev.hmacWork ∈ (handler1 testCfg testHost false (reqOf (some "orders/updated") (some sigWrong) bodyPaid200) []).trace ∧
    Ev.checkedTopic ∉ (handler1 testCfg testHost false (reqOf (some "orders/updated") (some sigWrong) bodyPaid200) []).trace ∧
    (handler2 testCfg testHost false (reqOf (some "orders/updated") (some sigWrong) bodyPaid200) []).status = 403 ∧
    Ev.hmacWork ∈ (handler2 testCfg testHost false (reqOf (some "orders/updated") (some sigWrong) bodyPaid200) []).trace ∧
    Ev.checkedTopic ∉ (handler2 testCfg testHost false (reqOf (some "orders/updated") (some sigWrong) bodyPaid200) []).trace :=
  ⟨by decide, by decide, by decide, by decide, by decide, by decide⟩

/-- Claim C6 (counterexample): two validly signed requests with a body
that is not well-formed JSON are both answered 200, not 400 — V1 because
`JSON.parse` throws into the catch-all (`ok:false`), V2 because an
unrecognised topic is skipped before parsing — refuting "responds with a
bad-request client error (400)" as stated over both handlers.  Neither
persists anything. -/
theorem C6_counterexample_bad_json_answered_200 :
    (handler1 testCfg testHost false (reqOf (some "orders/paid") (some sigBadJson) bodyBad) []).status = 200 ∧
    (handler1 testCfg testHost false (reqOf (some "orders/paid") (some sigBadJson) bodyBad) []).ok = some false ∧
    (handler1 testCfg testHost false (reqOf (some "orders/paid") (some sigBadJson) bodyBad) []).table = [] ∧
    (handler2 testCfg testHost false (reqOf (some "orders/updated") (some sigBadJson) bodyBad) []).status = 200 ∧
    (handler2 testCfg testHost false (reqOf (some "orders/updated") (some sigBadJson) bodyBad) []).table = [] :=
  ⟨by decide, by rfl, by rfl, by decide, by rfl⟩

/-- Claim C4 (amended, proved): in the `part_000` handler, every request
that passes method, domain, secret and signature checks with topic
`orders/paid`, parses to a non-null payload, and normalises to an empty
order identifier or a non-positive (or NaN) paid amount, is soft-skipped:
status 200 and an unchanged table.  (The `api/shopify-orders-paid.js`
handler has no such guard and persists a record while answering 200; see
the counterexample.) -/
theorem C4_amended_v2_soft_skip (cfg : Config) (host : Host) (dbF : Bool) (req : Request)
    (t : List Row) (payload : Js)
    (hm : (req.method == "POST") = true)
    (hd : domainRejectV2 cfg (strToLower (req.shopDomainHeader.getD "")) = false)
    (hs : (cfg.secret == "") = false)
    (hv : timingSafeEqualStr (host.hmacBase64 cfg.secret req.rawBody) (req.hmacHeader.getD "") = true)
    (ht : (strToLower (req.topicHeader.getD "") == "orders/paid") = true)
    (hp : host.parseJson req.rawBody = some payload)
    (hnull : jsIsNull payload = false)
    (hmiss : ((normOrderIdV2 host payload == "") || !(jsPos (normTotalPaidV2 host payload))) = true) :
    (handler2 cfg host dbF req t).status = 200 ∧ (handler2 cfg host dbF req t).table = t := by
  simp [handler2, hm, hd, hs, hv, ht, hp, hnull, hmiss]

/-- Witness for C4's amended theorem: the `total_price: "0"` scenario is
soft-skipped by the `part_000` handler. -/
theorem C4_amended_v2_soft_skip_witness :
    (handler2 testCfg testHost false (reqOf (some "orders/paid") (some sigPaid0) bodyPaid0) []).status = 200 ∧
    (handler2 testCfg testHost false (reqOf (some "orders/paid") (some sigPaid0) bodyPaid0) []).table = [] :=
  C4_amended_v2_soft_skip testCfg testHost false
    (reqOf (some "orders/paid") (some sigPaid0) bodyPaid0) [] payloadPaid0
    (by decide) (by decide) (by decide) (by decide) (by decide) (by rfl) (by decide) (by decide)

/-- Claim C5 (amended, proved): in both handlers the method and
source-domain checks do precede any secret-dependent work — whenever the
HMAC digest is computed, the method was POST and the domain gate had
passed — but the event-topic filter runs only AFTER the signature has
been computed and compared: the topic check never appears in a trace
without the HMAC work. -/
theorem C5_amended_gate_order (cfg : Config) (host : Host) (dbF : Bool) (req : Request)
    (t : List Row) :
    (Ev.hmacWork ∈ (handler1 cfg host dbF req t).trace →
      (req.method == "POST") = true ∧
        domainRejectV1 cfg (strToLower (req.shopDomainHeader.getD "")) = false) ∧
    (Ev.checkedTopic ∈ (handler1 cfg host dbF req t).trace →
      Ev.hmacWork ∈ (handler1 cfg host dbF req t).trace) ∧
    (Ev.hmacWork ∈ (handler2 cfg host dbF req t).trace →
      (req.method == "POST") = true ∧
        domainRejectV2 cfg (strToLower (req.shopDomainHeader.getD "")) = false) ∧
    (Ev.checkedTopic ∈ (handler2 cfg host dbF req t).trace →
      Ev.hmacWork ∈ (handler2 cfg host dbF req t).trace) := by
  refine ⟨?_, ?_, ?_, ?_⟩ <;>
  · simp only [handler1, handler2, catchOutcome]
    repeat' split
    all_goals intro hmem
    all_goals first
      | exact absurd hmem (by decide)
      | exact hmem
      | (refine ⟨?_, ?_⟩ <;> simp_all)
      | simp_all

/-- Witness for C5's amended theorem: a full valid run of V1 does HMAC
work, and the theorem then yields that its method and domain gates had
passed. -/
theorem C5_amended_gate_order_witness :
    ((reqOf (some "orders/paid") (some sigPaid200) bodyPaid200).method == "POST") = true ∧
    domainRejectV1 testCfg
      (strToLower ((reqOf (some "orders/paid") (some sigPaid200) bodyPaid200).shopDomainHeader.getD "")) = false :=
  (C5_amended_gate_order testCfg testHost false
    (reqOf (some "orders/paid") (some sigPaid200) bodyPaid200) []).1 (by decide)

/-- Claim C6 (amended, proved): for a malformed-JSON body, the
`part_000` handler answers 400 (Bad JSON) with nothing persisted —
provided the request also passed the gate, the signature and the
`orders/paid` topic filter, which runs before parsing — while the
`api/shopify-orders-paid.js` handler catches the parse failure and
answers 200 with `ok:false` (distinct from its `ok:true` soft-skip
acknowledgments), also persisting nothing. -/
theorem C6_amended_bad_json_dispositions (cfg : Config) (host : Host) (dbF : Bool)
    (req : Request) (t : List Row)
    (hm : (req.method == "POST") = true)
    (hp : host.parseJson req.rawBody = none) :
    ((domainRejectV2 cfg (strToLower (req.shopDomainHeader.getD "")) = false →
      (cfg.secret == "") = false →
      timingSafeEqualStr (host.hmacBase64 cfg.secret req.rawBody) (req.hmacHeader.getD "") = true →
      (strToLower (req.topicHeader.getD "") == "orders/paid") = true →
      (handler2 cfg host dbF req t).status = 400 ∧ (handler2 cfg host dbF req t).table = t)) ∧
    ((domainRejectV1 cfg (strToLower (req.shopDomainHeader.getD "")) = false →
      verifyShopifyHmac cfg host req.rawBody req.hmacHeader = HmacCheck.valid →
      (handler1 cfg host dbF req t).status = 200 ∧ (handler1 cfg host dbF req t).ok = some false ∧
        (handler1 cfg host dbF req t).table = t)) := by
  constructor
  · intro hd hs hv ht
    simp [handler2, hm, hd, hs, hv, ht, hp]
  · intro hd hvv
    simp [handler1, catchOutcome, hm, hd, hvv, hp]

/-- Witness for C6's amended theorem at the concrete malformed body. -/
theorem C6_amended_bad_json_witness :
    ((handler2 testCfg testHost false (reqOf (some "orders/paid") (some sigBadJson) bodyBad) []).status = 400 ∧
     (handler2 testCfg testHost false (reqOf (some "orders/paid") (some sigBadJson) bodyBad) []).table = []) ∧
    ((handler1 testCfg testHost false (reqOf (some "orders/paid") (some sigBadJson) bodyBad) []).status = 200 ∧
     (handler1 testCfg testHost false (reqOf (some "orders/paid") (some sigBadJson) bodyBad) []).ok = some false ∧
     (handler1 testCfg testHost false (reqOf (some "orders/paid") (some sigBadJson) bodyBad) []).table = []) :=
  ⟨(C6_amended_bad_json_dispositions testCfg testHost false
      (reqOf (some "orders/paid") (some sigBadJson) bodyBad) [] (by decide) (by rfl)).1
      (by decide) (by decide) (by decide) (by decide),
   (C6_amended_bad_json_dispositions testCfg testHost false
      (reqOf (some "orders/paid") (some sigBadJson) bodyBad) [] (by decide) (by rfl)).2
      (by decide) (by decide)⟩

/-- Claim C8: with no webhook secret configured, every POST request is
rejected fail-closed with nothing persisted: V1 answers 401 on every
path (its `verifyShopifyHmac` returns false before any digest work), V2
answers 403 (domain) or 500 (explicit misconfiguration response); the
table is unchanged in all cases. -/
theorem C8_missing_secret_fails_closed (cfg : Config) (host : Host) (dbF : Bool)
    (req : Request) (t : List Row)
    (hs : cfg.secret = "") (hm : (req.method == "POST") = true) :
    (handler1 cfg host dbF req t).status = 401 ∧ (handler1 cfg host dbF req t).table = t ∧
    ((handler2 cfg host dbF req t).status = 403 ∨ (handler2 cfg host dbF req t).status = 500) ∧
    (handler2 cfg host dbF req t).table = t := by
  by_cases hd1 : domainRejectV1 cfg (strToLower (req.shopDomainHeader.getD "")) = true <;>
  by_cases hd2 : domainRejectV2 cfg (strToLower (req.shopDomainHeader.getD "")) = true <;>
  refine ⟨?_, ?_, ?_, ?_⟩ <;>
  simp [handler1, handler2, verifyShopifyHmac, hm, hs, hd1, hd2]

/-- Witness for C8 at a concrete secretless configuration. -/
theorem C8_missing_secret_fails_closed_witness :
    (handler1 { secret := "", allowedDomain := "shop.example.com", cashbackPercent := some 5 }
      testHost false (reqOf (some "orders/paid") (some sigPaid200) bodyPaid200) []).status = 401 ∧
    (handler1 { secret := "", allowedDomain := "shop.example.com", cashbackPercent := some 5 }
      testHost false (reqOf (some "orders/paid") (some sigPaid200) bodyPaid200) []).table = [] ∧
    ((handler2 { secret := "", allowedDomain := "shop.example.com", cashbackPercent := some 5 }
      testHost false (reqOf (some "orders/paid") (some sigPaid200) bodyPaid200) []).status = 403 ∨
     (handler2 { secret := "", allowedDomain := "shop.example.com", cashbackPercent := some 5 }
      testHost false (reqOf (some "orders/paid") (some sigPaid200) bodyPaid200) []).status = 500) ∧
    (handler2 { secret := "", allowedDomain := "shop.example.com", cashbackPercent := some 5 }
      testHost false (reqOf (some "orders/paid") (some sigPaid200) bodyPaid200) []).table = [] :=
  C8_missing_secret_fails_closed
    { secret := "", allowedDomain := "shop.example.com", cashbackPercent := some 5 }
    testHost false (reqOf (some "orders/paid") (some sigPaid200) bodyPaid200) []
    (by rfl) (by decide)

/-- Claim C9: under a storage-layer failure, every request that reaches
the persistence step (`attemptedInsert` in its trace) is still answered
200 — V1 through its catch-all, V2 through its insert-local catch — and
the table is unchanged; in particular no internal-error status reaches
the caller. -/
theorem C9_storage_failure_acknowledged (cfg : Config) (host : Host) (req : Request)
    (t : List Row) :
    (Ev.attemptedInsert ∈ (handler1 cfg host true req t).trace →
      (handler1 cfg host true req t).status = 200 ∧ (handler1 cfg host true req t).table = t) ∧
    (Ev.attemptedInsert ∈ (handler2 cfg host true req t).trace →
      (handler2 cfg host true req t).status = 200 ∧ (handler2 cfg host true req t).table = t) := by
  constructor <;>
  · simp only [handler1, handler2, catchOutcome]
    repeat' split
    all_goals intro hmem
    all_goals first
      | exact absurd hmem (by decide)
      | exact ⟨rfl, rfl⟩
      | simp_all

/-- Witness for C9: a fully valid request served while the storage layer
fails is still acknowledged with 200 and leaves the table unchanged. -/
theorem C9_storage_failure_acknowledged_witness :
    (handler1 testCfg testHost true (reqOf (some "orders/paid") (some sigPaid200) bodyPaid200) []).status = 200 ∧
    (handler1 testCfg testHost true (reqOf (some "orders/paid") (some sigPaid200) bodyPaid200) []).table = [] :=
  (C9_storage_failure_acknowledged testCfg testHost
    (reqOf (some "orders/paid") (some sigPaid200) bodyPaid200) []).1 (by decide)

/-- Claim C10: when the allow-list domain is the empty string, the
`api/shopify-orders-paid.js` handler skips the domain check entirely —
every POST request reaches the signature-verification stage regardless
of its shop domain (fail-open) — whereas the `part_000` handler rejects
every POST request with 403 before verification (fail-closed), leaving
the table unchanged. -/
theorem C10_empty_allowlist_fail_open_vs_closed (cfg : Config) (host : Host) (dbF : Bool)
    (req : Request) (t : List Row)
    (ha : cfg.allowedDomain = "") (hm : (req.method == "POST") = true) :
    Ev.enteredVerify ∈ (handler1 cfg host dbF req t).trace ∧
    (handler2 cfg host dbF req t).status = 403 ∧
    (handler2 cfg host dbF req t).table = t ∧
    Ev.enteredVerify ∉ (handler2 cfg host dbF req t).trace := by
  refine ⟨?_, ?_, ?_, ?_⟩ <;>
  · simp only [handler1, handler2, domainRejectV1, domainRejectV2, catchOutcome, ha, hm]
    repeat' split
    all_goals first | decide | rfl | simp_all

/-- Witness for C10 with an unset allow-list and an arbitrary shop. -/
theorem C10_empty_allowlist_witness :
    Ev.enteredVerify ∈ (handler1 openCfg testHost false
      (reqOtherShop (some "orders/paid") (some sigPaid200) bodyPaid200) []).trace ∧
    (handler2 openCfg testHost false
      (reqOtherShop (some "orders/paid") (some sigPaid200) bodyPaid200) []).status = 403 ∧
    (handler2 openCfg testHost false
      (reqOtherShop (some "orders/paid") (some sigPaid200) bodyPaid200) []).table = [] ∧
    Ev.enteredVerify ∉ (handler2 openCfg testHost false
      (reqOtherShop (some "orders/paid") (some sigPaid200) bodyPaid200) []).trace :=
  C10_empty_allowlist_fail_open_vs_closed openCfg testHost false
    (reqOtherShop (some "orders/paid") (some sigPaid200) bodyPaid200) [] (by rfl) (by decide)
